import Mathlib

/-!
Verification of the en-wikinews-bot change-detection engine, persisted-state
handling, main-loop dispatch, markup-normalization loops, sentence splitter and
summary tier selection, as a shallow embedding of the Python sources
(`wikinews_bot.py`, `sentence_splitter.py`, `formatters/published.py`,
`config.py`).  Machine strings are modelled as `String` / `List Char`;
fallible I/O paths are modelled by `Option` / `Except` parameters standing for
the outcome of the corresponding Python operation.
-/

set_option maxRecDepth 20000

namespace WikinewsBot

/-- One member of a monitored category, as returned by `get_category_members`
(the API is asked for `cmprop = title|timestamp`, so both fields are present). -/
structure Article where
  title : String
  timestamp : String
deriving DecidableEq

/-- Index of the first snapshot entry whose title equals the stored
last-checked title, mirroring
`next(i for i, a in enumerate(all_articles) if a['title'] == self.last_checked_article_title)`
in `check_for_new_articles` (wikinews_bot.py line 274); `none` models the
`StopIteration` case.  The stored title is an `Option String` because
`load_last_checked_article_title` can return Python `None`; `None == a['title']`
is `False` in Python, matching `none = some _` being false here. -/
def findTitleIdx (last : Option String) : List Article → Option Nat
  | [] => none
  | a :: rest =>
    if last = some a.title then some 0
    else (findTitleIdx last rest).map (· + 1)

/-- `WikinewsBot.check_for_new_articles` (wikinews_bot.py lines 266-280): an
empty member list yields `[]`; otherwise locate the last-checked title, take
the strictly-newer prefix and reverse it (`new_articles[::-1]`); on
`StopIteration` fall back to `[all_articles[0]]` (whose reversal is itself). -/
def check_for_new_articles (last : Option String) (all_articles : List Article) : List Article :=
  match all_articles with
  | [] => []
  | a :: rest =>
    match findTitleIdx last (a :: rest) with
    | some i => ((a :: rest).take i).reverse
    | none => [a]

/-- The JSON object written by `save_last_checked_article`
(wikinews_bot.py lines 62-73): `{'title': article_data.get('title'),
'timestamp': article_data.get('timestamp')}`; `dict.get` yields `Option`. -/
structure SavedState where
  title : Option String
  timestamp : Option String
deriving DecidableEq

/-- `save_last_checked_article` applied to an article coming from the category
snapshot (both keys present). -/
def save_last_checked_article (a : Article) : SavedState :=
  { title := some a.title, timestamp := some a.timestamp }

/-- `load_last_checked_article_title` (wikinews_bot.py lines 47-60).
`file = none` models an absent state file (`os.path.exists` false);
`some (Except.error ())` models an exception while opening/parsing the file;
`some (Except.ok t)` models a successfully parsed JSON object with
`data.get('title') = t` (so `t = none` when the object has no `'title'` key).
The parsed branch returns `t` directly; only the absent and exception paths
fall through to the configured `initial_article`. -/
def load_last_checked_article_title
    (file : Option (Except Unit (Option String))) (initial_article : String) : Option String :=
  match file with
  | some (Except.ok title) => title
  | some (Except.error _) => some initial_article
  | none => some initial_article

/-- The per-article body of the dispatch loop in `main_async`
(wikinews_bot.py lines 356-391): for `message_type` `'published'` or
`'developing'` the article is formatted, broadcast, and recorded as
`latest_article_data`; any other type logs a warning and `continue`s.
The accumulator is (articles dispatched so far, `latest_article_data`). -/
def dispatchStep (message_type : String)
    (acc : List Article × Option Article) (article : Article) :
    List Article × Option Article :=
  if message_type = "published" || message_type = "developing" then
    (acc.1 ++ [article], some article)
  else acc

/-- The whole dispatch loop of one category cycle in `main_async`:
`latest_article_data` starts as `None` and the loop runs over the
chronologically ordered new articles. -/
def processItems (message_type : String) (new_articles : List Article) :
    List Article × Option Article :=
  new_articles.foldl (dispatchStep message_type) ([], none)

/-- End of a `main_async` category cycle (wikinews_bot.py lines 393-394):
`if latest_article_data: bot_instance.save_last_checked_article(latest_article_data)`.
When nothing was dispatched the state file is not rewritten, so the persisted
state stays `old`. -/
def cycleFinalState (message_type : String) (new_articles : List Article)
    (old : Option SavedState) : Option SavedState :=
  match (processItems message_type new_articles).2 with
  | some a => some (save_last_checked_article a)
  | none => old

/-- Concrete snapshot articles used by witnesses. -/
def artA : Article := ⟨"A", "2024-01-01T00:00:00Z"⟩

def artB : Article := ⟨"B", "2024-01-02T00:00:00Z"⟩

def artC : Article := ⟨"C", "2024-01-03T00:00:00Z"⟩

def artD : Article := ⟨"D", "2024-01-04T00:00:00Z"⟩

/-- The spec's example snapshot `[D, C, B, A]`, most-recent-first. -/
def snapshotDCBA : List Article := [artD, artC, artB, artA]

/-- ASCII Python `str` whitespace, as stripped by `str.strip()` (all inputs in
this development are ASCII, so the Unicode whitespace cases never arise). -/
def isPySpace (c : Char) : Bool :=
  c == ' ' || c == '\t' || c == '\n' || c == '\r' || c == '\x0b' || c == '\x0c'

/-- Python `str.strip()` on character lists. -/
def pyStrip (s : List Char) : List Char :=
  ((s.dropWhile isPySpace).reverse.dropWhile isPySpace).reverse

/-- Boolean prefix test on character lists. -/
def isPrefixL : List Char → List Char → Bool
  | [], _ => true
  | _ :: _, [] => false
  | a :: as, b :: bs => a == b && isPrefixL as bs

/-- Tail-recursive list length (`lenT n l = n + l.length`), with an
accumulator that is forced to a numeral at every step; used for the fuel
arguments so that evaluating them keeps a bounded reduction depth. -/
def lenT : Nat → List Char → Nat
  | n, [] => n
  | 0, _ :: rest => lenT 1 rest
  | n + 1, _ :: rest => lenT (n + 2) rest

/-- Python `str.replace(old, new)` for a non-empty `old`, on character lists:
replace every non-overlapping occurrence of `old` scanning left to right; the
replacement text is not rescanned.  Fuelled by the input length so that it
computes by kernel reduction; every step consumes at least one input
character, so the fuel is never exhausted when it starts at the length. -/
def pyReplaceFuel (old new : List Char) : Nat → List Char → List Char
  | _, [] => []
  | 0, s => s
  | n + 1, c :: rest =>
    if isPrefixL old (c :: rest) then
      new ++ pyReplaceFuel old new n (List.drop (old.length - 1) rest)
    else
      c :: pyReplaceFuel old new n rest

/-- Python `str.replace(old, new)`, including the empty-`old` behaviour
(`"abc".replace("", "X") = "XaXbXcX"`); no call site in the sources uses an
empty pattern. -/
def pyReplace (old new s : List Char) : List Char :=
  match old with
  | [] => new ++ (s.map (fun c => c :: new)).flatten
  | _ :: _ => pyReplaceFuel old new (lenT 0 s) s

/-- Python `str.split(sep)` for a non-empty separator, on character lists:
non-overlapping leftmost separator occurrences delimit the parts; empty parts
are kept.  Fuelled by the input length; each step consumes at least one
character. -/
def pySplitFuel (sep : List Char) : Nat → List Char → List Char → List (List Char)
  | _, acc, [] => [acc.reverse]
  | 0, acc, s => [acc.reverse ++ s]
  | n + 1, acc, c :: rest =>
    if isPrefixL sep (c :: rest) then
      acc.reverse :: pySplitFuel sep n [] (List.drop (sep.length - 1) rest)
    else
      pySplitFuel sep n (c :: acc) rest

/-- Python `str.split(sep)` for a non-empty separator. -/
def pySplit (sep s : List Char) : List (List Char) :=
  pySplitFuel sep (lenT 0 s) [] s

/-- `EXCEPTION_STRING` (sentence_splitter.py line 4), verbatim. -/
def EXCEPTION_STRING : String := "...; Mr.; Mrs.; Dr.; Jr.; Sr.; Prof.; St.; Ave.; Corp.; Inc.; Ltd.; Co.; Gov.; Capt.; Sgt.; et al.; vs.; e.t.a.; .A.; .B.; .C.; .D.; .E.; .F.; .G.; .H.; .I.; .J.; .K.; .L.; .M.; .N.; .O.; .P.; .Q.; .R.; .S.; .T.; .U.; .V.; .W.; .X.; .Y.; .Z.;  A.;  B.;  C.;  D.;  E.;  F.;  G.;  H.;  I.;  J.;  K.;  L.;  M.;  N.;  O.;  P.;  Q.;  R.;  S.;  T.;  U.;  V.;  W.;  X.;  Y.;  Z.; .a.; .b.; .c.; .d.; .e.; .f.; .g.; .h.; .i.; .j.; .k.; .l.; .m; .n.; .o.; .p.; .q.; .r.; .s.; .t.; .u.; .v.; .w.; .x.; .y.; .z.; .a; .b; .c; .d; .e; .f; .g; .h; .i; .j; .k; .l; .m; .n; .o; .p; .q; .r; .s; .t; .u; .v; .w; .x; .y; .z; 0.0; 0.1; 0.2; 0.3; 0.4; 0.5; 0.6; 0.7; 0.8; 0.9; 1.0; 1.1; 1.2; 1.3; 1.4; 1.5; 1.6; 1.7; 1.8; 1.9; 2.0; 2.1; 2.2; 2.3; 2.4; 2.5; 2.6; 2.7; 2.8; 2.9; 3.0; 3.1; 3.2; 3.3; 3.4; 3.5; 3.6; 3.7; 3.8; 3.9; 4.0; 4.1; 4.2; 4.3; 4.4; 4.5; 4.6; 4.7; 4.8; 4.9; 5.0; 5.1; 5.2; 5.3; 5.4; 5.5; 5.6; 5.7; 5.8; 5.9; 6.0; 6.1; 6.2; 6.3; 6.4; 6.5; 6.6; 6.7; 6.8; 6.9; 7.0; 7.1; 7.2; 7.3; 7.4; 7.5; 7.6; 7.7; 7.8; 7.9; 8.0; 8.1; 8.2; 8.3; 8.4; 8.5; 8.6; 8.7; 8.8; 8.9; 9.0; 9.1; 9.2; 9.3; 9.4; 9.5; 9.6; 9.7; 9.8; 9.9. .0; .1; .2; .3; .4; .5; .6; .7; .8; .9;"

/-- `PERIOD_PLACEHOLDER` (sentence_splitter.py line 6). -/
def PERIOD_PLACEHOLDER : String := "PERIOD_PLACEHOLDER"

/-- `EXCEPTION_STRING_SEPARATOR` (sentence_splitter.py line 7). -/
def EXCEPTION_STRING_SEPARATOR : String := "; "

/-- `PERIOD_EXCEPTIONS = EXCEPTION_STRING.split(EXCEPTION_STRING_SEPARATOR)`
(sentence_splitter.py line 8), given as the literal list of the 232 split
parts so that it reduces cheaply; the theorem `PERIOD_EXCEPTIONS_faithful`
proves it equal to the source construction. -/
def PERIOD_EXCEPTIONS : List (List Char) :=
  (["...", "Mr.", "Mrs.", "Dr.", "Jr.", "Sr.", "Prof.", "St.", "Ave.", "Corp.", "Inc.", "Ltd.", "Co.", "Gov.", "Capt.", "Sgt.", "et al.", "vs.", "e.t.a.", ".A.", ".B.", ".C.", ".D.", ".E.", ".F.", ".G.", ".H.", ".I.", ".J.", ".K.", ".L.", ".M.", ".N.", ".O.", ".P.", ".Q.", ".R.", ".S.", ".T.", ".U.", ".V.", ".W.", ".X.", ".Y.", ".Z.", " A.", " B.", " C.", " D.", " E.", " F.", " G.", " H.", " I.", " J.", " K.", " L.", " M.", " N.", " O.", " P.", " Q.", " R.", " S.", " T.", " U.", " V.", " W.", " X.", " Y.", " Z.", ".a.", ".b.", ".c.", ".d.", ".e.", ".f.", ".g.", ".h.", ".i.", ".j.", ".k.", ".l.", ".m", ".n.", ".o.", ".p.", ".q.", ".r.", ".s.", ".t.", ".u.", ".v.", ".w.", ".x.", ".y.", ".z.", ".a", ".b", ".c", ".d", ".e", ".f", ".g", ".h", ".i", ".j", ".k", ".l", ".m", ".n", ".o", ".p", ".q", ".r", ".s", ".t", ".u", ".v", ".w", ".x", ".y", ".z", "0.0", "0.1", "0.2", "0.3", "0.4", "0.5", "0.6", "0.7", "0.8", "0.9", "1.0", "1.1", "1.2", "1.3", "1.4", "1.5", "1.6", "1.7", "1.8", "1.9", "2.0", "2.1", "2.2", "2.3", "2.4", "2.5", "2.6", "2.7", "2.8", "2.9", "3.0", "3.1", "3.2", "3.3", "3.4", "3.5", "3.6", "3.7", "3.8", "3.9", "4.0", "4.1", "4.2", "4.3", "4.4", "4.5", "4.6", "4.7", "4.8", "4.9", "5.0", "5.1", "5.2", "5.3", "5.4", "5.5", "5.6", "5.7", "5.8", "5.9", "6.0", "6.1", "6.2", "6.3", "6.4", "6.5", "6.6", "6.7", "6.8", "6.9", "7.0", "7.1", "7.2", "7.3", "7.4", "7.5", "7.6", "7.7", "7.8", "7.9", "8.0", "8.1", "8.2", "8.3", "8.4", "8.5", "8.6", "8.7", "8.8", "8.9", "9.0", "9.1", "9.2", "9.3", "9.4", "9.5", "9.6", "9.7", "9.8", "9.9. .0", ".1", ".2", ".3", ".4", ".5", ".6", ".7", ".8", ".9;"] : List String).map String.data

/-- `PERIOD_EXCEPTION_PLACEHOLDERS =
EXCEPTION_STRING.replace('.', PERIOD_PLACEHOLDER).split(EXCEPTION_STRING_SEPARATOR)`
(sentence_splitter.py line 9), given as the literal list of the 232 parts so
that it reduces cheaply; the theorem `PERIOD_EXCEPTION_PLACEHOLDERS_faithful`
proves it equal to the source construction. -/
def PERIOD_EXCEPTION_PLACEHOLDERS : List (List Char) :=
  (["PERIOD_PLACEHOLDERPERIOD_PLACEHOLDERPERIOD_PLACEHOLDER", "MrPERIOD_PLACEHOLDER", "MrsPERIOD_PLACEHOLDER", "DrPERIOD_PLACEHOLDER", "JrPERIOD_PLACEHOLDER", "SrPERIOD_PLACEHOLDER", "ProfPERIOD_PLACEHOLDER", "StPERIOD_PLACEHOLDER", "AvePERIOD_PLACEHOLDER", "CorpPERIOD_PLACEHOLDER", "IncPERIOD_PLACEHOLDER", "LtdPERIOD_PLACEHOLDER", "CoPERIOD_PLACEHOLDER", "GovPERIOD_PLACEHOLDER", "CaptPERIOD_PLACEHOLDER", "SgtPERIOD_PLACEHOLDER", "et alPERIOD_PLACEHOLDER", "vsPERIOD_PLACEHOLDER", "ePERIOD_PLACEHOLDERtPERIOD_PLACEHOLDERaPERIOD_PLACEHOLDER", "PERIOD_PLACEHOLDERAPERIOD_PLACEHOLDER", "PERIOD_PLACEHOLDERBPERIOD_PLACEHOLDER", "PERIOD_PLACEHOLDERCPERIOD_PLACEHOLDER", "PERIOD_PLACEHOLDERDPERIOD_PLACEHOLDER", "PERIOD_PLACEHOLDEREPERIOD_PLACEHOLDER", "PERIOD_PLACEHOLDERFPERIOD_PLACEHOLDER", "PERIOD_PLACEHOLDERGPERIOD_PLACEHOLDER", "PERIOD_PLACEHOLDERHPERIOD_PLACEHOLDER", "PERIOD_PLACEHOLDERIPERIOD_PLACEHOLDER", "PERIOD_PLACEHOLDERJPERIOD_PLACEHOLDER", "PERIOD_PLACEHOLDERKPERIOD_PLACEHOLDER", "PERIOD_PLACEHOLDERLPERIOD_PLACEHOLDER", "PERIOD_PLACEHOLDERMPERIOD_PLACEHOLDER", "PERIOD_PLACEHOLDERNPERIOD_PLACEHOLDER", "PERIOD_PLACEHOLDEROPERIOD_PLACEHOLDER", "PERIOD_PLACEHOLDERPPERIOD_PLACEHOLDER", "PERIOD_PLACEHOLDERQPERIOD_PLACEHOLDER", "PERIOD_PLACEHOLDERRPERIOD_PLACEHOLDER", "PERIOD_PLACEHOLDERSPERIOD_PLACEHOLDER", "PERIOD_PLACEHOLDERTPERIOD_PLACEHOLDER", "PERIOD_PLACEHOLDERUPERIOD_PLACEHOLDER", "PERIOD_PLACEHOLDERVPERIOD_PLACEHOLDER", "PERIOD_PLACEHOLDERWPERIOD_PLACEHOLDER", "PERIOD_PLACEHOLDERXPERIOD_PLACEHOLDER", "PERIOD_PLACEHOLDERYPERIOD_PLACEHOLDER", "PERIOD_PLACEHOLDERZPERIOD_PLACEHOLDER", " APERIOD_PLACEHOLDER", " BPERIOD_PLACEHOLDER", " CPERIOD_PLACEHOLDER", " DPERIOD_PLACEHOLDER", " EPERIOD_PLACEHOLDER", " FPERIOD_PLACEHOLDER", " GPERIOD_PLACEHOLDER", " HPERIOD_PLACEHOLDER", " IPERIOD_PLACEHOLDER", " JPERIOD_PLACEHOLDER", " KPERIOD_PLACEHOLDER", " LPERIOD_PLACEHOLDER", " MPERIOD_PLACEHOLDER", " NPERIOD_PLACEHOLDER", " OPERIOD_PLACEHOLDER", " PPERIOD_PLACEHOLDER", " QPERIOD_PLACEHOLDER", " RPERIOD_PLACEHOLDER", " SPERIOD_PLACEHOLDER", " TPERIOD_PLACEHOLDER", " UPERIOD_PLACEHOLDER", " VPERIOD_PLACEHOLDER", " WPERIOD_PLACEHOLDER", " XPERIOD_PLACEHOLDER", " YPERIOD_PLACEHOLDER", " ZPERIOD_PLACEHOLDER", "PERIOD_PLACEHOLDERaPERIOD_PLACEHOLDER", "PERIOD_PLACEHOLDERbPERIOD_PLACEHOLDER", "PERIOD_PLACEHOLDERcPERIOD_PLACEHOLDER", "PERIOD_PLACEHOLDERdPERIOD_PLACEHOLDER", "PERIOD_PLACEHOLDERePERIOD_PLACEHOLDER", "PERIOD_PLACEHOLDERfPERIOD_PLACEHOLDER", "PERIOD_PLACEHOLDERgPERIOD_PLACEHOLDER", "PERIOD_PLACEHOLDERhPERIOD_PLACEHOLDER", "PERIOD_PLACEHOLDERiPERIOD_PLACEHOLDER", "PERIOD_PLACEHOLDERjPERIOD_PLACEHOLDER", "PERIOD_PLACEHOLDERkPERIOD_PLACEHOLDER", "PERIOD_PLACEHOLDERlPERIOD_PLACEHOLDER", "PERIOD_PLACEHOLDERm", "PERIOD_PLACEHOLDERnPERIOD_PLACEHOLDER", "PERIOD_PLACEHOLDERoPERIOD_PLACEHOLDER", "PERIOD_PLACEHOLDERpPERIOD_PLACEHOLDER", "PERIOD_PLACEHOLDERqPERIOD_PLACEHOLDER", "PERIOD_PLACEHOLDERrPERIOD_PLACEHOLDER", "PERIOD_PLACEHOLDERsPERIOD_PLACEHOLDER", "PERIOD_PLACEHOLDERtPERIOD_PLACEHOLDER", "PERIOD_PLACEHOLDERuPERIOD_PLACEHOLDER", "PERIOD_PLACEHOLDERvPERIOD_PLACEHOLDER", "PERIOD_PLACEHOLDERwPERIOD_PLACEHOLDER", "PERIOD_PLACEHOLDERxPERIOD_PLACEHOLDER", "PERIOD_PLACEHOLDERyPERIOD_PLACEHOLDER", "PERIOD_PLACEHOLDERzPERIOD_PLACEHOLDER", "PERIOD_PLACEHOLDERa", "PERIOD_PLACEHOLDERb", "PERIOD_PLACEHOLDERc", "PERIOD_PLACEHOLDERd", "PERIOD_PLACEHOLDERe", "PERIOD_PLACEHOLDERf", "PERIOD_PLACEHOLDERg", "PERIOD_PLACEHOLDERh", "PERIOD_PLACEHOLDERi", "PERIOD_PLACEHOLDERj", "PERIOD_PLACEHOLDERk", "PERIOD_PLACEHOLDERl", "PERIOD_PLACEHOLDERm", "PERIOD_PLACEHOLDERn", "PERIOD_PLACEHOLDERo", "PERIOD_PLACEHOLDERp", "PERIOD_PLACEHOLDERq", "PERIOD_PLACEHOLDERr", "PERIOD_PLACEHOLDERs", "PERIOD_PLACEHOLDERt", "PERIOD_PLACEHOLDERu", "PERIOD_PLACEHOLDERv", "PERIOD_PLACEHOLDERw", "PERIOD_PLACEHOLDERx", "PERIOD_PLACEHOLDERy", "PERIOD_PLACEHOLDERz", "0PERIOD_PLACEHOLDER0", "0PERIOD_PLACEHOLDER1", "0PERIOD_PLACEHOLDER2", "0PERIOD_PLACEHOLDER3", "0PERIOD_PLACEHOLDER4", "0PERIOD_PLACEHOLDER5", "0PERIOD_PLACEHOLDER6", "0PERIOD_PLACEHOLDER7", "0PERIOD_PLACEHOLDER8", "0PERIOD_PLACEHOLDER9", "1PERIOD_PLACEHOLDER0", "1PERIOD_PLACEHOLDER1", "1PERIOD_PLACEHOLDER2", "1PERIOD_PLACEHOLDER3", "1PERIOD_PLACEHOLDER4", "1PERIOD_PLACEHOLDER5", "1PERIOD_PLACEHOLDER6", "1PERIOD_PLACEHOLDER7", "1PERIOD_PLACEHOLDER8", "1PERIOD_PLACEHOLDER9", "2PERIOD_PLACEHOLDER0", "2PERIOD_PLACEHOLDER1", "2PERIOD_PLACEHOLDER2", "2PERIOD_PLACEHOLDER3", "2PERIOD_PLACEHOLDER4", "2PERIOD_PLACEHOLDER5", "2PERIOD_PLACEHOLDER6", "2PERIOD_PLACEHOLDER7", "2PERIOD_PLACEHOLDER8", "2PERIOD_PLACEHOLDER9", "3PERIOD_PLACEHOLDER0", "3PERIOD_PLACEHOLDER1", "3PERIOD_PLACEHOLDER2", "3PERIOD_PLACEHOLDER3", "3PERIOD_PLACEHOLDER4", "3PERIOD_PLACEHOLDER5", "3PERIOD_PLACEHOLDER6", "3PERIOD_PLACEHOLDER7", "3PERIOD_PLACEHOLDER8", "3PERIOD_PLACEHOLDER9", "4PERIOD_PLACEHOLDER0", "4PERIOD_PLACEHOLDER1", "4PERIOD_PLACEHOLDER2", "4PERIOD_PLACEHOLDER3", "4PERIOD_PLACEHOLDER4", "4PERIOD_PLACEHOLDER5", "4PERIOD_PLACEHOLDER6", "4PERIOD_PLACEHOLDER7", "4PERIOD_PLACEHOLDER8", "4PERIOD_PLACEHOLDER9", "5PERIOD_PLACEHOLDER0", "5PERIOD_PLACEHOLDER1", "5PERIOD_PLACEHOLDER2", "5PERIOD_PLACEHOLDER3", "5PERIOD_PLACEHOLDER4", "5PERIOD_PLACEHOLDER5", "5PERIOD_PLACEHOLDER6", "5PERIOD_PLACEHOLDER7", "5PERIOD_PLACEHOLDER8", "5PERIOD_PLACEHOLDER9", "6PERIOD_PLACEHOLDER0", "6PERIOD_PLACEHOLDER1", "6PERIOD_PLACEHOLDER2", "6PERIOD_PLACEHOLDER3", "6PERIOD_PLACEHOLDER4", "6PERIOD_PLACEHOLDER5", "6PERIOD_PLACEHOLDER6", "6PERIOD_PLACEHOLDER7", "6PERIOD_PLACEHOLDER8", "6PERIOD_PLACEHOLDER9", "7PERIOD_PLACEHOLDER0", "7PERIOD_PLACEHOLDER1", "7PERIOD_PLACEHOLDER2", "7PERIOD_PLACEHOLDER3", "7PERIOD_PLACEHOLDER4", "7PERIOD_PLACEHOLDER5", "7PERIOD_PLACEHOLDER6", "7PERIOD_PLACEHOLDER7", "7PERIOD_PLACEHOLDER8", "7PERIOD_PLACEHOLDER9", "8PERIOD_PLACEHOLDER0", "8PERIOD_PLACEHOLDER1", "8PERIOD_PLACEHOLDER2", "8PERIOD_PLACEHOLDER3", "8PERIOD_PLACEHOLDER4", "8PERIOD_PLACEHOLDER5", "8PERIOD_PLACEHOLDER6", "8PERIOD_PLACEHOLDER7", "8PERIOD_PLACEHOLDER8", "8PERIOD_PLACEHOLDER9", "9PERIOD_PLACEHOLDER0", "9PERIOD_PLACEHOLDER1", "9PERIOD_PLACEHOLDER2", "9PERIOD_PLACEHOLDER3", "9PERIOD_PLACEHOLDER4", "9PERIOD_PLACEHOLDER5", "9PERIOD_PLACEHOLDER6", "9PERIOD_PLACEHOLDER7", "9PERIOD_PLACEHOLDER8", "9PERIOD_PLACEHOLDER9PERIOD_PLACEHOLDER PERIOD_PLACEHOLDER0", "PERIOD_PLACEHOLDER1", "PERIOD_PLACEHOLDER2", "PERIOD_PLACEHOLDER3", "PERIOD_PLACEHOLDER4", "PERIOD_PLACEHOLDER5", "PERIOD_PLACEHOLDER6", "PERIOD_PLACEHOLDER7", "PERIOD_PLACEHOLDER8", "PERIOD_PLACEHOLDER9;"] : List String).map String.data

/-- `insert_placeholders` (sentence_splitter.py lines 11-15): sequentially
replace each exception by the placeholder form of the same index. -/
def insert_placeholders (text : List Char)
    (period_exceptions period_exception_placeholders : List (List Char)) : List Char :=
  (period_exceptions.zip period_exception_placeholders).foldl
    (fun t p => pyReplace p.1 p.2 t) text

/-- `remove_placeholders` (sentence_splitter.py lines 17-21): sequentially
replace each placeholder form back by the exception of the same index. -/
def remove_placeholders (text : List Char)
    (period_exceptions period_exception_placeholders : List (List Char)) : List Char :=
  (period_exceptions.zip period_exception_placeholders).foldl
    (fun t p => pyReplace p.2 p.1 t) text

/-- Sentence-boundary characters of `re.split(r'([.!?])', ...)`. -/
def isBoundary (c : Char) : Bool := c == '.' || c == '!' || c == '?'

/-- `re.split(r'([.!?])', text)`: alternating text parts and single-character
delimiter parts, starting and ending with a (possibly empty) text part. -/
def splitKeep : List Char → List (List Char)
  | [] => [[]]
  | c :: rest =>
    if isBoundary c then
      [] :: [c] :: splitKeep rest
    else
      match splitKeep rest with
      | p :: ps => (c :: p) :: ps
      | [] => [[c]]

/-- The `while i < len(sentence_parts) - 1` loop plus the trailing-fragment
handling of `split_into_sentences` (sentence_splitter.py lines 34-61),
consuming the parts pairwise (`i += 2`): each text part is joined with its
delimiter; if the stripped next part opens with closing double quotes those
quotes move onto the current sentence and the next part is replaced by its
stripped, de-quoted remainder; placeholders are restored on every emitted
sentence; a final lone part is stripped and emitted when non-empty.  Fuelled
by the number of parts, which bounds the number of loop iterations.
`assembleLast` is the `len(sentence_parts) % 2 == 1` trailing-part handling
(sentence_splitter.py lines 57-61). -/
def assembleLast (t : List Char) : List (List Char) :=
  let lp := pyStrip t
  if lp = [] then []
  else [remove_placeholders lp PERIOD_EXCEPTIONS PERIOD_EXCEPTION_PLACEHOLDERS]

/-- `lenT` for part lists. -/
def lenTP : Nat → List (List Char) → Nat
  | n, [] => n
  | 0, _ :: rest => lenTP 1 rest
  | n + 1, _ :: rest => lenTP (n + 2) rest

/-- See `assembleLast`: the pairwise loop itself. -/
def assembleFuel : Nat → List (List Char) → List (List Char)
  | _, [] => []
  | _, [t] => assembleLast t
  | 0, _ :: _ :: _ => []
  | n + 1, t :: d :: rest =>
    let sentence := t ++ d
    match rest with
    | [] => [remove_placeholders sentence PERIOD_EXCEPTIONS PERIOD_EXCEPTION_PLACEHOLDERS]
    | r :: rest2 =>
      let rs := pyStrip r
      if rs.head? = some '\"' then
        let q := rs.takeWhile (fun c => c == '\"')
        remove_placeholders (sentence ++ q) PERIOD_EXCEPTIONS PERIOD_EXCEPTION_PLACEHOLDERS ::
          assembleFuel n (rs.drop q.length :: rest2)
      else
        remove_placeholders sentence PERIOD_EXCEPTIONS PERIOD_EXCEPTION_PLACEHOLDERS ::
          assembleFuel n (r :: rest2)

/-- `split_into_sentences` (sentence_splitter.py lines 23-63). -/
def split_into_sentences (text : List Char) : List (List Char) :=
  if text = [] then []
  else
    let modified :=
      insert_placeholders text PERIOD_EXCEPTIONS PERIOD_EXCEPTION_PLACEHOLDERS
    let parts := splitKeep modified
    assembleFuel (lenTP 0 parts) parts

/-- Shape invariant on `splitKeep` output as consumed pairwise by
`assembleFuel`: the part in delimiter position is never empty. -/
inductive AltOk : List (List Char) → Prop
  | nil : AltOk []
  | single (t : List Char) : AltOk [t]
  | pair (t d : List Char) (rest : List (List Char)) :
      d ≠ [] → AltOk rest → AltOk (t :: d :: rest)

/-- Match `[^\}]*\}\}`, the tail of the `remove_templates` search pattern, at
the start of the input: skip characters other than a closing brace, then
require two closing braces. -/
def closeBraces : List Char → Bool
  | '\x7d' :: '\x7d' :: _ => true
  | '\x7d' :: _ => false
  | _ :: rest => closeBraces rest
  | [] => false

/-- Match the full search pattern of `remove_templates` at the start of the
input: two opening braces, then `[^\}]*\}\}`. -/
def tmplOpenMatch : List Char → Bool
  | '\x7b' :: '\x7b' :: rest => closeBraces rest
  | _ => false

/-- The guard `re.search(r'\{\{[^\}]*\}\}', text)` of the `while` loop in
`remove_templates` (sentence_splitter.py line 126): the pattern matches at
some position. -/
def searchTmpl : List Char → Bool
  | [] => false
  | s@(_ :: rest) => tmplOpenMatch s || searchTmpl rest

/-- `[^\}\{]*`: drop the maximal run of non-brace characters. -/
def skipNonBrace (s : List Char) : List Char :=
  s.dropWhile (fun c => !(c == '\x7b' || c == '\x7d'))

/-- Candidate remainders, in backtracking-preference order, of matching one
layer of the compiled `strip_templates` pattern
`\{\{[^\}\{]*(?:\{\{[^\}\{]*(?:\{\{[^\}\{]*(?:\{\{[^\}\{]*\}\})?\}\})?\}\})?\}\}`
(sentence_splitter.py line 125) at the head of the input: two opening braces,
the forced maximal run of non-brace characters, optionally (preferred) one
nested layer, then two closing braces.  The first argument counts the layers
still available; the source pattern has four, and the innermost layer has no
nested option, which the `0` case realises.  The character-class runs and the
braces are forced, so the optional groups are the only choice points. -/
def tmplCands : Nat → List Char → List (List Char)
  | 0, _ => []
  | d + 1, '\x7b' :: '\x7b' :: rest =>
    let r := skipNonBrace rest
    let withNested := (tmplCands d r).filterMap fun r2 =>
      match r2 with
      | '\x7d' :: '\x7d' :: r3 => some r3
      | _ => none
    let withoutNested :=
      match r with
      | '\x7d' :: '\x7d' :: r3 => [r3]
      | _ => []
    withNested ++ withoutNested
  | _ + 1, _ => []

/-- `strip_templates.sub('', text)` (sentence_splitter.py line 127): scan left
to right; at each position take the engine's preferred match of the four-layer
pattern if there is one, emit nothing for it (the replacement is empty) and
continue after it; otherwise keep the character.  Fuelled by the input length;
a match consumes at least four characters. -/
def subTemplatesFuel : Nat → List Char → List Char
  | _, [] => []
  | 0, s => s
  | n + 1, c :: rest =>
    match (tmplCands 4 (c :: rest)).head? with
    | some rem => subTemplatesFuel n rem
    | none => c :: subTemplatesFuel n rest

/-- One substitution pass of `remove_templates`. -/
def subTemplates (s : List Char) : List Char :=
  subTemplatesFuel (lenT 0 s) s

/-- The `while re.search(r'\{\{[^\}]*\}\}', text)` loop of `remove_templates`
(sentence_splitter.py lines 126-128) with explicit fuel: `none` means the loop
is still running when the fuel runs out, so a result of `none` for every fuel
value is non-termination. -/
def removeTemplatesLoop : Nat → List Char → Option (List Char)
  | 0, _ => none
  | n + 1, t => if searchTmpl t then removeTemplatesLoop n (subTemplates t) else some t

/-- The guard `re.search(r'\[\[', text)` of the `while` loop in `handle_links`
(sentence_splitter.py line 146): the text contains two consecutive opening
brackets. -/
def searchOpenLink : List Char → Bool
  | '[' :: '[' :: _ => true
  | _ :: rest => searchOpenLink rest
  | [] => false

/-- Try `([^\]]+)\]\]` at the head of the input: the capture is the forced
maximal non-empty run of characters other than `]`, which must be followed by
`]]`. -/
def linkBody (s : List Char) : Option (List Char × List Char) :=
  let c := s.takeWhile (fun ch => !(ch == ']'))
  if c = [] then none
  else
    match s.drop c.length with
    | ']' :: ']' :: r => some (c, r)
    | _ => none

/-- The regex engine's match of `piped_link = \[\[(?:[^|\]]*\|)?([^\]]+)\]\]`
(sentence_splitter.py line 145) at the head of the input, as (captured group,
remainder): after `[[` the optional pipe group is preferred when the forced
run of non-`|`, non-`]` characters is followed by `|` and the body matches
after the pipe; otherwise the group is skipped and the body must match
directly. -/
def linkMatch : List Char → Option (List Char × List Char)
  | '[' :: '[' :: rest =>
    let b := rest.takeWhile (fun ch => !(ch == '|' || ch == ']'))
    let withPipe :=
      match rest.drop b.length with
      | '|' :: r => linkBody r
      | _ => none
    (match withPipe with
     | some res => some res
     | none => linkBody rest)
  | _ => none

/-- `piped_link.sub(r'\1', text)` (sentence_splitter.py line 147): replace
each preferred match by its captured group, scanning left to right; the
emitted capture is not rescanned.  Fuelled by the input length; a match
consumes at least five characters. -/
def subPipedFuel : Nat → List Char → List Char
  | _, [] => []
  | 0, s => s
  | n + 1, c :: rest =>
    match linkMatch (c :: rest) with
    | some (g, rem) => g ++ subPipedFuel n rem
    | none => c :: subPipedFuel n rest

/-- One substitution pass of the bracket-link loop in `handle_links`. -/
def subPiped (s : List Char) : List Char := subPipedFuel (lenT 0 s) s

/-- The `while re.search(r'\[\[', text)` loop of `handle_links`
(sentence_splitter.py lines 146-147) with explicit fuel: `none` for every
fuel value is non-termination. -/
def handleLinksLoop : Nat → List Char → Option (List Char)
  | 0, _ => none
  | n + 1, t => if searchOpenLink t then handleLinksLoop n (subPiped t) else some t

/-- The malformed template input `{{a{b}}` on which the `remove_templates`
loop spins. -/
def tmplBad : List Char := ['\x7b', '\x7b', 'a', '\x7b', 'b', '\x7d', '\x7d']

/-- The malformed link input `[[` on which the `handle_links` loop spins. -/
def linkBad : List Char := ['[', '[']

/-- Which of the three methods of `get_article_summary` produced the returned
summary. -/
inductive Tier
  | t1
  | t2
  | t3
deriving DecidableEq

/-- Outcomes of the fetch/normalize collaborators feeding
`get_article_summary` (formatters/published.py lines 26-148; the method of the
same name in wikinews_bot.py lines 96-239 has the same tier logic): `tier1` is
the `cleanup_content` result on the full raw wikitext when that fetch finds a
page with revisions, `tier2Text` is `soup.get_text()` of the fully parsed HTML
when that fetch succeeds, and `tier3` is the summary produced by the
first-section fallback block. -/
structure SummarySources where
  tier1 : Option (List Char)
  tier2Text : Option (List Char)
  tier3 : List Char

/-- METHOD 2 of `get_article_summary`: split the full HTML text into
sentences; if there are any, collect stripped sentences longer than 15
characters, stopping after two; if any were collected the summary is the
first two joined by a single space, otherwise fall through. -/
def method2 (allText : List Char) : Option (List Char) :=
  let sentences := split_into_sentences allText
  if sentences = [] then none
  else
    let meaningful := ((sentences.map pyStrip).filter (fun s => 15 < s.length)).take 2
    if meaningful = [] then none
    else some (List.intercalate [' '] meaningful)

/-- Fallback of `get_article_summary` past METHOD 1: METHOD 2 when it
produces a summary, METHOD 3 otherwise. -/
def summaryFallback (src : SummarySources) : Tier × List Char :=
  match src.tier2Text with
  | some t =>
    match method2 t with
    | some s => (Tier.t2, s)
    | none => (Tier.t3, src.tier3)
  | none => (Tier.t3, src.tier3)

/-- The tier selection of `get_article_summary`: METHOD 1 returns the
wikitext cleanup result iff `summary and len(summary.strip()) > 10`
(formatters/published.py line 50, wikinews_bot.py line 124); otherwise the
fallback runs. -/
def get_article_summary (src : SummarySources) : Tier × List Char :=
  match src.tier1 with
  | some summary =>
    if summary ≠ [] ∧ 10 < (pyStrip summary).length then (Tier.t1, summary)
    else summaryFallback src
  | none => summaryFallback src

set_option maxHeartbeats 16000000 in
/-- The literal `PERIOD_EXCEPTIONS` equals the source construction
`EXCEPTION_STRING.split(EXCEPTION_STRING_SEPARATOR)`. -/
theorem PERIOD_EXCEPTIONS_faithful :
    PERIOD_EXCEPTIONS = pySplit EXCEPTION_STRING_SEPARATOR.data EXCEPTION_STRING.data := by
  decide

set_option maxHeartbeats 16000000 in
/-- The literal `PERIOD_EXCEPTION_PLACEHOLDERS` equals the source construction
`EXCEPTION_STRING.replace('.', PERIOD_PLACEHOLDER).split(EXCEPTION_STRING_SEPARATOR)`. -/
theorem PERIOD_EXCEPTION_PLACEHOLDERS_faithful :
    PERIOD_EXCEPTION_PLACEHOLDERS = pySplit EXCEPTION_STRING_SEPARATOR.data
      (pyReplace ['.'] PERIOD_PLACEHOLDER.data EXCEPTION_STRING.data) := by
  decide

theorem findTitleIdx_eq_some (t : String) :
    ∀ (all : List Article) (i : Nat) (ai : Article),
      all.get? i = some ai → ai.title = t →
      (∀ a ∈ all.take i, a.title ≠ t) →
      findTitleIdx (some t) all = some i := by
  intro all
  induction all with
  | nil => intro i ai h _ _; simp [List.get?] at h
  | cons a rest ih =>
    intro i ai hget htitle hfirst
    cases i with
    | zero =>
      rw [List.get?] at hget
      have : a = ai := by simpa using hget
      subst this
      simp [findTitleIdx, htitle]
    | succ j =>
      have ha : a.title ≠ t := hfirst a (by simp [List.take_succ_cons])
      have hrest : findTitleIdx (some t) rest = some j := by
        refine ih j ai ?_ htitle ?_
        · simpa [List.get?] using hget
        · intro x hx
          exact hfirst x (by simp [List.take_succ_cons, hx])
      have hcond : ¬ (some t = some a.title) := by
        simp only [Option.some.injEq]
        exact fun h => ha h.symm
      simp [findTitleIdx, hcond, hrest]

theorem findTitleIdx_eq_none (last : Option String) :
    ∀ all : List Article, (∀ a ∈ all, last ≠ some a.title) →
      findTitleIdx last all = none := by
  intro all
  induction all with
  | nil => intro _; rfl
  | cons a rest ih =>
    intro h
    have ha : last ≠ some a.title := h a (by simp)
    have hrest := ih (fun x hx => h x (by simp [hx]))
    simp [findTitleIdx, ha, hrest]

/-- C1: Ordinal change detection — for every snapshot (most-recent-first) in
which the stored last-seen title occurs, with its first occurrence at index
`i`, `check_for_new_articles` returns exactly the first `i` snapshot entries
reversed to oldest-first order. -/
theorem c1_ordinal_change_detection
    (all : List Article) (t : String) (i : Nat) (ai : Article)
    (hget : all.get? i = some ai) (htitle : ai.title = t)
    (hfirst : ∀ a ∈ all.take i, a.title ≠ t) :
    check_for_new_articles (some t) all = (all.take i).reverse := by
  cases all with
  | nil => simp [List.get?] at hget
  | cons a rest =>
    have hf := findTitleIdx_eq_some t (a :: rest) i ai hget htitle hfirst
    simp [check_for_new_articles, hf]

/-- C1 witness: snapshot `[D, C, B, A]` with last-seen title `B` (first
occurrence at index 2) yields `[C, D]`, oldest first. -/
theorem c1_ordinal_change_detection_witness :
    check_for_new_articles (some "B") snapshotDCBA = (snapshotDCBA.take 2).reverse ∧
    (snapshotDCBA.take 2).reverse = [artC, artD] :=
  ⟨c1_ordinal_change_detection snapshotDCBA "B" 2 artB (by decide) (by decide)
    (by decide), by decide⟩

/-- C2: Ordinal fallback — whenever no snapshot entry carries the stored
last-seen title (including a stored `none`), `check_for_new_articles` returns
the one-element list holding the single most-recent item, i.e. `take 1` of the
snapshot; on an empty snapshot this is the empty list. -/
theorem c2_ordinal_fallback (last : Option String) (all : List Article)
    (h : ∀ a ∈ all, last ≠ some a.title) :
    check_for_new_articles last all = all.take 1 := by
  cases all with
  | nil => rfl
  | cons a rest =>
    have hf := findTitleIdx_eq_none last (a :: rest) h
    simp [check_for_new_articles, hf]

/-- C2 witness: a stored title `Z` absent from the snapshot `[D, C, B, A]`
yields exactly `[D]`, and the empty snapshot yields `[]`. -/
theorem c2_ordinal_fallback_witness :
    check_for_new_articles (some "Z") snapshotDCBA = snapshotDCBA.take 1 ∧
    snapshotDCBA.take 1 = [artD] ∧
    check_for_new_articles (some "Z") [] = List.take 1 [] :=
  ⟨c2_ordinal_fallback (some "Z") snapshotDCBA (by decide), by decide,
   c2_ordinal_fallback (some "Z") [] (by decide)⟩

theorem dispatch_foldl_getLast (mt : String) :
    ∀ (items : List Article) (acc : List Article × Option Article),
      acc.2 = acc.1.getLast? →
      (items.foldl (dispatchStep mt) acc).2
        = (items.foldl (dispatchStep mt) acc).1.getLast? := by
  intro items
  induction items with
  | nil => intro acc h; simpa using h
  | cons a rest ih =>
    intro acc h
    simp only [List.foldl_cons]
    apply ih
    unfold dispatchStep
    split
    · simp
    · exact h

/-- C3: Resume-point state update — in every category cycle,
`latest_article_data` ends as the last article actually dispatched (not
unconditionally the newest snapshot entry), and when at least one article was
dispatched the state saved at the end of the cycle records exactly that
article's title and timestamp. -/
theorem c3_resume_point_state (mt : String) (items : List Article)
    (old : Option SavedState) :
    (processItems mt items).2 = (processItems mt items).1.getLast? ∧
    (∀ a : Article, (processItems mt items).1.getLast? = some a →
      cycleFinalState mt items old = some (save_last_checked_article a)) := by
  have h : (processItems mt items).2 = (processItems mt items).1.getLast? :=
    dispatch_foldl_getLast mt items ([], none) rfl
  refine ⟨h, ?_⟩
  intro a ha
  unfold cycleFinalState
  rw [h, ha]

/-- C3 witness: dispatching `[A, B]` (oldest first) for the `published` type
saves the title and timestamp of `B`, the last article dispatched. -/
theorem c3_resume_point_state_witness :
    cycleFinalState "published" [artA, artB] none = some (save_last_checked_article artB) ∧
    save_last_checked_article artB = ⟨some "B", some "2024-01-02T00:00:00Z"⟩ :=
  ⟨(c3_resume_point_state "published" [artA, artB] none).2 artB (by decide), by decide⟩

/-- C9: State-load edge case — a state file that exists and parses but has no
`'title'` key makes `load_last_checked_article_title` return `none` (Python
`None`), not the configured initial article; in general a parsed file
determines the result by its `'title'` field alone, and the configured
initial article is produced by the absent-file and exception paths. -/
theorem c9_load_state_title_field :
    (∀ init : String,
        load_last_checked_article_title (some (Except.ok none)) init = none) ∧
    (∀ (tf : Option String) (init : String),
        load_last_checked_article_title (some (Except.ok tf)) init = tf) ∧
    (∀ init : String,
        load_last_checked_article_title none init = some init) ∧
    (∀ init : String,
        load_last_checked_article_title (some (Except.error ())) init = some init) :=
  ⟨fun _ => rfl, fun _ _ => rfl, fun _ => rfl, fun _ => rfl⟩

/-- C10: Unrecognized message type — for any `message_type` other than
`'published'` and `'developing'` (such as the configured `'review'`), the
cycle dispatches nothing and records no latest article, and the persisted
state is left unchanged. -/
theorem c10_unknown_type_skips (mt : String)
    (hp : mt ≠ "published") (hd : mt ≠ "developing")
    (items : List Article) (old : Option SavedState) :
    processItems mt items = ([], none) ∧ cycleFinalState mt items old = old := by
  have hstep : ∀ (acc : List Article × Option Article) (a : Article),
      dispatchStep mt acc a = acc := by
    intro acc a
    unfold dispatchStep
    simp [hp, hd]
  have hfold : ∀ (l : List Article) (acc : List Article × Option Article),
      l.foldl (dispatchStep mt) acc = acc := by
    intro l
    induction l with
    | nil => intro acc; rfl
    | cons a rest ih => intro acc; simp [List.foldl_cons, hstep, ih]
  refine ⟨hfold items ([], none), ?_⟩
  simp [cycleFinalState, processItems, hfold]

/-- C10 witness: the `review` category type skips both articles and leaves the
previously saved state untouched. -/
theorem c10_unknown_type_skips_witness :
    processItems "review" [artA, artB] = ([], none) ∧
    cycleFinalState "review" [artA, artB] (some ⟨some "A", some "x"⟩)
      = some ⟨some "A", some "x"⟩ :=
  ⟨(c10_unknown_type_skips "review" (by decide) (by decide) [artA, artB]
      (some ⟨some "A", some "x"⟩)).1,
   (c10_unknown_type_skips "review" (by decide) (by decide) [artA, artB]
      (some ⟨some "A", some "x"⟩)).2⟩

/-- C4: Normalizer termination — refuted on the code.  On the malformed input
`{{a{b}}` the search guard of `remove_templates` holds while the substitution
pass changes nothing, and on `[[` the guard of the bracket-link loop in
`handle_links` holds while the piped-link pass changes nothing, so both
`while` loops run forever: no amount of fuel makes them exit.  (The loops
re-test a search pattern, not the no-change condition the spec prescribes.) -/
theorem c4_normalizer_loops_diverge :
    (searchTmpl tmplBad = true ∧ subTemplates tmplBad = tmplBad ∧
      ∀ n, removeTemplatesLoop n tmplBad = none) ∧
    (searchOpenLink linkBad = true ∧ subPiped linkBad = linkBad ∧
      ∀ n, handleLinksLoop n linkBad = none) := by
  refine ⟨⟨by decide, by decide, ?_⟩, ⟨by decide, by decide, ?_⟩⟩
  · intro n
    induction n with
    | zero => rfl
    | succ m ih =>
      have h1 : searchTmpl tmplBad = true := by decide
      have h2 : subTemplates tmplBad = tmplBad := by decide
      rw [removeTemplatesLoop, h1, if_pos rfl, h2, ih]
  · intro n
    induction n with
    | zero => rfl
    | succ m ih =>
      have h1 : searchOpenLink linkBad = true := by decide
      have h2 : subPiped linkBad = linkBad := by decide
      rw [handleLinksLoop, h1, if_pos rfl, h2, ih]

set_option maxHeartbeats 8000000 in
theorem split_example_eval :
    split_into_sentences (String.data "Dr. Smith met Mr. Jones. It was good.")
      = [String.data "Dr. Smith met Mr. Jones.", String.data " It was good."] := by
  decide

/-- C6 counterexample: on the spec's example input the splitter does not
return the claimed pair — the second returned fragment keeps the leading
space after the sentence boundary. -/
theorem c6_abbrev_example_cex :
    split_into_sentences (String.data "Dr. Smith met Mr. Jones. It was good.")
      ≠ [String.data "Dr. Smith met Mr. Jones.", String.data "It was good."] := by
  rw [split_example_eval]
  decide

/-- C6 (amended): the example input splits into exactly
`"Dr. Smith met Mr. Jones."` and `" It was good."` — the abbreviation periods
of `Dr.` and `Mr.` do not terminate sentences, and the second sentence
carries the leading space following the first boundary because interior
fragments are not trimmed. -/
theorem c6_abbrev_example :
    split_into_sentences (String.data "Dr. Smith met Mr. Jones. It was good.")
      = [String.data "Dr. Smith met Mr. Jones.", String.data " It was good."] :=
  split_example_eval

set_option maxHeartbeats 8000000 in
/-- C7 counterexample: `split_into_sentences` returns the 2-character
fragment `"a."` unchanged, so fragments shorter than 4 characters are not
discarded. -/
theorem c7_minlength_cex :
    String.data "a." ∈ split_into_sentences (String.data "a.") ∧
    (String.data "a.").length < 4 := by
  exact ⟨by decide, by decide⟩

theorem pyReplaceFuel_ne_nil (old new : List Char) (hnew : new ≠ []) :
    ∀ (n : Nat) (s : List Char), s ≠ [] → pyReplaceFuel old new n s ≠ [] := by
  intro n
  induction n with
  | zero =>
    intro s hs
    cases s with
    | nil => exact absurd rfl hs
    | cons c rest => simp only [pyReplaceFuel]; exact hs
  | succ m ih =>
    intro s hs
    cases s with
    | nil => exact absurd rfl hs
    | cons c rest =>
      rw [pyReplaceFuel]
      split
      · intro h
        rw [List.append_eq_nil] at h
        exact hnew h.1
      · simp

theorem pyReplace_ne_nil (old new s : List Char) (hnew : new ≠ []) (hs : s ≠ []) :
    pyReplace old new s ≠ [] := by
  cases old with
  | nil =>
    intro h
    rw [pyReplace, List.append_eq_nil] at h
    exact hnew h.1
  | cons a as => exact pyReplaceFuel_ne_nil _ _ hnew _ _ hs

theorem replaceFold_ne_nil :
    ∀ (l : List (List Char × List Char)) (t : List Char),
      (∀ p ∈ l, p.1 ≠ []) → t ≠ [] →
      l.foldl (fun t p => pyReplace p.2 p.1 t) t ≠ [] := by
  intro l
  induction l with
  | nil => intro t _ ht; simpa using ht
  | cons p rest ih =>
    intro t hl ht
    simp only [List.foldl_cons]
    exact ih _ (fun q hq => hl q (by simp [hq]))
      (pyReplace_ne_nil _ _ _ (hl p (by simp)) ht)

set_option maxHeartbeats 8000000 in
theorem period_exceptions_ne_nil : ∀ e ∈ PERIOD_EXCEPTIONS, e ≠ [] := by decide

theorem remove_placeholders_ne_nil (s : List Char) (hs : s ≠ []) :
    remove_placeholders s PERIOD_EXCEPTIONS PERIOD_EXCEPTION_PLACEHOLDERS ≠ [] := by
  apply replaceFold_ne_nil _ _ _ hs
  intro p hp
  obtain ⟨a, b⟩ := p
  exact period_exceptions_ne_nil a (List.of_mem_zip hp).1

theorem altOk_replace_head {x y : List Char} {xs : List (List Char)}
    (h : AltOk (x :: xs)) : AltOk (y :: xs) := by
  cases h with
  | single _ => exact AltOk.single y
  | pair _ d rest hd hr => exact AltOk.pair y d rest hd hr

theorem splitKeep_altOk (s : List Char) : AltOk (splitKeep s) := by
  induction s with
  | nil => exact AltOk.single []
  | cons c rest ih =>
    rw [splitKeep]
    by_cases hb : isBoundary c = true
    · rw [if_pos hb]
      exact AltOk.pair [] [c] _ (by simp) ih
    · rw [if_neg hb]
      cases hsk : splitKeep rest with
      | nil => exact AltOk.single [c]
      | cons p ps =>
        rw [hsk] at ih
        exact altOk_replace_head (y := c :: p) ih

theorem assembleLast_eq (t : List Char) :
    assembleLast t =
      if pyStrip t = [] then []
      else [remove_placeholders (pyStrip t) PERIOD_EXCEPTIONS PERIOD_EXCEPTION_PLACEHOLDERS] := rfl

theorem assembleLast_ne_nil (t : List Char) :
    ∀ s ∈ assembleLast t, s ≠ [] := by
  intro s hs
  rw [assembleLast_eq] at hs
  split at hs
  · simp at hs
  · next hlp =>
    rw [List.mem_singleton] at hs
    intro hcon
    exact remove_placeholders_ne_nil _ hlp (hs.symm.trans hcon)

theorem assembleFuel_nil_zero : assembleFuel 0 [] = [] := rfl

theorem assembleFuel_nil_succ (n : Nat) : assembleFuel (n + 1) [] = [] := rfl

theorem assembleFuel_zero_pair (a b : List Char) (rest : List (List Char)) :
    assembleFuel 0 (a :: b :: rest) = [] := rfl

theorem assembleFuel_single_zero (t : List Char) : assembleFuel 0 [t] = assembleLast t := rfl

theorem assembleFuel_single_succ (n : Nat) (t : List Char) :
    assembleFuel (n + 1) [t] = assembleLast t := rfl

theorem assembleFuel_pair_nil (n : Nat) (t d : List Char) :
    assembleFuel (n + 1) (t :: d :: ([] : List (List Char))) =
      [remove_placeholders (t ++ d) PERIOD_EXCEPTIONS PERIOD_EXCEPTION_PLACEHOLDERS] := rfl

theorem assembleFuel_pair (n : Nat) (t d r : List Char) (rest2 : List (List Char)) :
    assembleFuel (n + 1) (t :: d :: r :: rest2) =
      (if (pyStrip r).head? = some '\"' then
        remove_placeholders ((t ++ d) ++ (pyStrip r).takeWhile (fun c => c == '\"'))
            PERIOD_EXCEPTIONS PERIOD_EXCEPTION_PLACEHOLDERS ::
          assembleFuel n
            ((pyStrip r).drop ((pyStrip r).takeWhile (fun c => c == '\"')).length :: rest2)
      else
        remove_placeholders (t ++ d) PERIOD_EXCEPTIONS PERIOD_EXCEPTION_PLACEHOLDERS ::
          assembleFuel n (r :: rest2)) := rfl

theorem assembleFuel_ne_nil :
    ∀ (n : Nat) (parts : List (List Char)), AltOk parts →
      ∀ s ∈ assembleFuel n parts, s ≠ [] := by
  intro n
  induction n with
  | zero =>
    intro parts _ s hs
    match parts with
    | [] =>
      rw [assembleFuel_nil_zero] at hs
      exact absurd hs (List.not_mem_nil s)
    | [t] =>
      rw [assembleFuel_single_zero] at hs
      exact assembleLast_ne_nil t s hs
    | a :: b :: rest =>
      rw [assembleFuel_zero_pair] at hs
      exact absurd hs (List.not_mem_nil s)
  | succ m ih =>
    intro parts hAlt s hs
    match parts, hAlt with
    | [], _ =>
      rw [assembleFuel_nil_succ] at hs
      exact absurd hs (List.not_mem_nil s)
    | [t], _ =>
      rw [assembleFuel_single_succ] at hs
      exact assembleLast_ne_nil t s hs
    | t :: d :: rest, AltOk.pair _ _ _ hd hr =>
      have hsent : t ++ d ≠ [] := by
        intro h
        rw [List.append_eq_nil] at h
        exact hd h.2
      match rest, hr with
      | [], _ =>
        rw [assembleFuel_pair_nil, List.mem_singleton] at hs
        intro hcon
        exact remove_placeholders_ne_nil _ hsent (hs.symm.trans hcon)
      | r :: rest2, hr =>
        rw [assembleFuel_pair] at hs
        split at hs
        · rcases List.mem_cons.mp hs with h | h
          · intro hcon
            refine remove_placeholders_ne_nil _ ?_ (h.symm.trans hcon)
            intro hc
            rw [List.append_eq_nil] at hc
            exact hsent hc.1
          · exact ih _ (altOk_replace_head hr) s h
        · rcases List.mem_cons.mp hs with h | h
          · intro hcon
            exact remove_placeholders_ne_nil _ hsent (h.symm.trans hcon)
          · exact ih _ hr s h

theorem split_into_sentences_eq (text : List Char) :
    split_into_sentences text =
      if text = [] then []
      else
        assembleFuel
          (lenTP 0 (splitKeep (insert_placeholders text PERIOD_EXCEPTIONS PERIOD_EXCEPTION_PLACEHOLDERS)))
          (splitKeep (insert_placeholders text PERIOD_EXCEPTIONS PERIOD_EXCEPTION_PLACEHOLDERS)) := rfl

/-- C7 (amended): every string returned by `split_into_sentences` is
non-empty, but no 4-character minimum-length filter exists: short fragments
such as `"a."` are returned as sentences. -/
theorem c7_sentences_nonempty (text s : List Char)
    (hs : s ∈ split_into_sentences text) : s ≠ [] := by
  rw [split_into_sentences_eq] at hs
  split at hs
  · exact absurd hs (List.not_mem_nil s)
  · exact assembleFuel_ne_nil _ _ (splitKeep_altOk _) s hs

set_option maxHeartbeats 8000000 in
/-- C7 witness: the concrete fragment `"a."` returned by a concrete run is
non-empty. -/
theorem c7_sentences_nonempty_witness :
    String.data "a." ∈ split_into_sentences (String.data "a.") ∧
    String.data "a." ≠ ([] : List Char) :=
  ⟨by decide, c7_sentences_nonempty (String.data "a.") (String.data "a.") (by decide)⟩

theorem summaryFallback_not_t1 (src : SummarySources) :
    (summaryFallback src).1 ≠ Tier.t1 := by
  rw [summaryFallback]
  cases htt : src.tier2Text with
  | none => simp
  | some t =>
    cases hm : method2 t with
    | none => simp [hm]
    | some s => simp [hm]

/-- C8: Summary tier fallback threshold — when METHOD 1 yields the cleanup
result `s` of the full raw wikitext, `get_article_summary` returns `s` as the
tier-1 summary iff the trimmed `s` is longer than 10 characters; whenever it
has at most 10 characters (even a non-empty one), a later tier is attempted
instead. -/
theorem c8_tier1_threshold (src : SummarySources) (s : List Char)
    (h : src.tier1 = some s) :
    ((get_article_summary src = (Tier.t1, s)) ↔ 10 < (pyStrip s).length) ∧
    ((pyStrip s).length ≤ 10 → (get_article_summary src).1 ≠ Tier.t1) := by
  have hget : get_article_summary src =
      (if s ≠ [] ∧ 10 < (pyStrip s).length then (Tier.t1, s) else summaryFallback src) := by
    rw [get_article_summary, h]
  by_cases hlen : 10 < (pyStrip s).length
  · have hs : s ≠ [] := by
      intro hnil
      subst hnil
      exact absurd hlen (by decide)
    rw [hget, if_pos ⟨hs, hlen⟩]
    exact ⟨⟨fun _ => hlen, fun _ => rfl⟩, fun hle => absurd hlen (not_lt.mpr hle)⟩
  · have hcond : ¬ (s ≠ [] ∧ 10 < (pyStrip s).length) := fun hc => hlen hc.2
    rw [hget, if_neg hcond]
    refine ⟨⟨fun heq => ?_, fun hl => absurd hl hlen⟩, fun _ => summaryFallback_not_t1 src⟩
    exact absurd (congrArg Prod.fst heq) (summaryFallback_not_t1 src)

/-- C8 witness: a 3-character METHOD 1 result (trimmed length 3 ≤ 10) is
rejected and a later tier is used: the returned tier is not tier 1. -/
theorem c8_tier1_threshold_witness :
    (pyStrip (String.data "abc")).length ≤ 10 ∧
    (get_article_summary ⟨some (String.data "abc"), none, []⟩).1 ≠ Tier.t1 :=
  ⟨by decide,
   (c8_tier1_threshold ⟨some (String.data "abc"), none, []⟩ (String.data "abc") rfl).2
     (by decide)⟩

end WikinewsBot
